import Mathlib

/-!
Verification of the wedding-planner repository (three source variants:
`App` in `docs/script.js`, the optimized `WeddingApp` in the same file, and
the older `WeddingApp` in the unnamed source file, called `P0` here).
JavaScript values flowing through the numeric coercions are modelled by
`JVal`; `none : Option ℚ` models a non-finite JS number (NaN or Infinity).
-/

/-- The double-quote character, written by code point. -/
def quoteChar : Char := Char.ofNat 34

/-- The single-quote character, written by code point. -/
def aposChar : Char := Char.ofNat 39

/-- Whitespace characters stripped by JS `String.prototype.trim`. -/
def isJsWhitespace (c : Char) : Bool :=
  c = ' ' || c = '\t' || c = '\n' || c = '\r'

/-- Trim whitespace from both ends of a character list (JS `trim`). -/
def trimChars (l : List Char) : List Char :=
  ((l.dropWhile isJsWhitespace).reverse.dropWhile isJsWhitespace).reverse

/-- JS `s.trim()` on strings. -/
def jsTrim (s : String) : String := String.mk (trimChars s.data)

/-- Numeric value of a decimal digit list (most significant first). -/
def natOfDigits (l : List Char) : ℕ :=
  l.foldl (fun a c => a * 10 + (c.toNat - 48)) 0

/-- Parse an unsigned decimal literal (`12`, `12.`, `.5`, `3.25`).
Returns `none` for non-numeric text (exponent and hex forms are outside
the modelled input space). -/
def parseDec (l : List Char) : Option ℚ :=
  let intPart := l.takeWhile Char.isDigit
  let rest := l.dropWhile Char.isDigit
  match rest with
  | [] => if intPart = [] then none else some (natOfDigits intPart)
  | c :: frac =>
    if c = '.' ∧ frac.all Char.isDigit ∧ (intPart ≠ [] ∨ frac ≠ []) then
      some ((natOfDigits intPart : ℚ) + (natOfDigits frac : ℚ) / (10 ^ frac.length : ℚ))
    else none

/-- JS `Number(string)`: trimmed empty string is `0`, optional sign,
decimal forms; `none` models NaN. -/
def strToNumber (s : String) : Option ℚ :=
  match trimChars s.data with
  | [] => some 0
  | '-' :: r => (parseDec r).map Neg.neg
  | '+' :: r => parseDec r
  | l => parseDec l

/-- A JavaScript value as it appears in entity fields: `undef` is a missing
field, `nan` a stored NaN number, `str` a string, `num` a finite number. -/
inductive JVal where
  | undef
  | jnull
  | nan
  | num (q : ℚ)
  | str (s : String)
deriving DecidableEq

/-- JS `Number(v)`; `none` models NaN. -/
def toNumber : JVal → Option ℚ
  | JVal.undef => none
  | JVal.jnull => some 0
  | JVal.nan => none
  | JVal.num q => some q
  | JVal.str s => strToNumber s

/-- JS truthiness of a value. -/
def truthy : JVal → Bool
  | JVal.undef => false
  | JVal.jnull => false
  | JVal.nan => false
  | JVal.num q => if q = 0 then false else true
  | JVal.str s => if s = "" then false else true

/-- JS `a || b` on values. -/
def jsOr (a b : JVal) : JVal := if truthy a then a else b

/-- JS `Number(v) || d`: the default replaces NaN and zero. -/
def numOrElse (v : JVal) (d : ℚ) : ℚ :=
  match toNumber v with
  | some q => if q = 0 then d else q
  | none => d

/-- NaN-propagating addition of JS numbers. -/
def jsAdd : Option ℚ → Option ℚ → Option ℚ
  | some x, some y => some (x + y)
  | _, _ => none

/-- JS division `a / b` where `b` is coerced with `Number`; a zero or
non-numeric denominator (or non-finite numerator) gives a non-finite
result, modelled as `none`. -/
def jsDiv (a : Option ℚ) (b : JVal) : Option ℚ :=
  match a, toNumber b with
  | some x, some y => if y = 0 then none else some (x / y)
  | _, _ => none

/-- JS `Math.round` on a finite number: floor of `q + 1/2`. -/
def jsRound (q : ℚ) : ℤ := ⌊q + 1 / 2⌋

/-! ## Data model of the `App` variant (`docs/script.js`, first engine) -/

/-- An expense record of the `App` variant. -/
structure Expense where
  id : ℕ
  title : String
  category : String
  cost : JVal
  paid : JVal
  note : String
  created : String
deriving DecidableEq

/-- A guest record of the `App` variant. -/
structure Guest where
  id : ℕ
  name : String
  side : String
  count : JVal
  status : String
  gift : JVal
  created : String
deriving DecidableEq

/-- A task record of the `App` variant (named `AppTask` because `Task` is
taken by the Lean core library). -/
structure AppTask where
  id : ℕ
  title : String
  category : String
  done : Bool
  created : String
deriving DecidableEq

/-- The `App` settings object. -/
structure Settings where
  groom : String
  bride : String
  date : String
  budget : ℚ
  guest_estimate : ℚ
deriving DecidableEq

/-- The `App` persisted document. -/
structure Doc where
  onboarded : Bool
  settings : Settings
  expenses : List Expense
  guests : List Guest
  tasks : List AppTask
deriving DecidableEq

/-- `App.defaults` from the source. -/
def App_defaults : Doc :=
  { onboarded := false
    settings :=
      { groom := "החתן", bride := "הכלה", date := "", budget := 150000,
        guest_estimate := 300 }
    expenses := [], guests := [], tasks := [] }

/-- The derived-values snapshot produced by `App.compute` (`this._cache`). -/
structure Snapshot where
  totalCost : ℚ
  totalPaid : ℚ
  expRemaining : ℚ
  budgetLeft : ℚ
  budgetPercent : ℚ
  totalGuests : ℚ
  confirmed : ℚ
  pending : ℚ
  declined : ℚ
  gifts : ℚ
  doneTasks : ℕ
  totalTasks : ℕ
  taskPercent : ℚ
  weddingProgress : ℤ
deriving DecidableEq

/-- Accumulator of the guest loop in `App.compute`. -/
structure GuestAcc where
  totalGuests : ℚ
  confirmed : ℚ
  pending : ℚ
  declined : ℚ
  gifts : ℚ
deriving DecidableEq

/-- One iteration of the guest loop in `App.compute`:
`cnt = Number(count) || 1`, gift coerced with `|| 0`, and the
confirmed / declined / pending buckets chosen by the status string. -/
def guestStep (acc : GuestAcc) (g : Guest) : GuestAcc :=
  let cnt := numOrElse g.count 1
  let acc2 := { acc with totalGuests := acc.totalGuests + cnt,
                         gifts := acc.gifts + numOrElse g.gift 0 }
  if g.status = "מגיע" then { acc2 with confirmed := acc2.confirmed + cnt }
  else if g.status = "לא מגיע" then { acc2 with declined := acc2.declined + cnt }
  else { acc2 with pending := acc2.pending + cnt }

/-- One iteration of the expense loop in `App.compute`:
`totalCost += Number(cost) || 0; totalPaid += Number(paid) || 0`. -/
def expStep (acc : ℚ × ℚ) (e : Expense) : ℚ × ℚ :=
  (acc.1 + numOrElse e.cost 0, acc.2 + numOrElse e.paid 0)

/-- `App.compute` from `docs/script.js` (the cached aggregation). -/
def App_compute (d : Doc) : Snapshot :=
  let et := d.expenses.foldl expStep (0, 0)
  let totalCost := et.1
  let totalPaid := et.2
  let ga := d.guests.foldl guestStep ⟨0, 0, 0, 0, 0⟩
  let doneTasks := (d.tasks.filter (fun t => t.done)).length
  let totalTasks := d.tasks.length
  let progressItems : ℤ := (totalTasks : ℤ) + 2
  let progressDone : ℤ :=
    (doneTasks : ℤ) + (if d.expenses.length > 0 then 1 else 0) +
      (if d.guests.length > 0 then 1 else 0)
  let weddingProgress : ℤ :=
    if progressItems > 0 then
      jsRound ((progressDone : ℚ) / (progressItems : ℚ) * 100)
    else 0
  { totalCost := totalCost
    totalPaid := totalPaid
    expRemaining := totalCost - totalPaid
    budgetLeft := d.settings.budget - totalPaid
    budgetPercent :=
      if d.settings.budget > 0 then min (totalPaid / d.settings.budget) 1 else 0
    totalGuests := ga.totalGuests
    confirmed := ga.confirmed
    pending := ga.pending
    declined := ga.declined
    gifts := ga.gifts
    doneTasks := doneTasks
    totalTasks := totalTasks
    taskPercent :=
      if totalTasks > 0 then (doneTasks : ℚ) / (totalTasks : ℚ) else 0
    weddingProgress := min weddingProgress 100 }

/-! ## Data model of the optimized `WeddingApp` variant (`W` prefix) -/

/-- An expense record of the optimized `WeddingApp` variant. -/
structure WExpense where
  title : String
  estimated_cost : JVal
  paid_amount : JVal
deriving DecidableEq

/-- A guest record of the optimized `WeddingApp` variant. -/
structure WGuest where
  name : String
  side : String
  total_people : JVal
  status : String
  gift : JVal
deriving DecidableEq

/-- The optimized `WeddingApp` settings object. -/
structure WSettings where
  total_budget : ℚ
  groom_name : String
  bride_name : String
  wedding_date : String
deriving DecidableEq

/-- The optimized `WeddingApp` document. -/
structure WDoc where
  settings : WSettings
  expenses : List WExpense
  guests : List WGuest
deriving DecidableEq

/-- The initial `WeddingApp.data` (defaults). -/
def W_defaults : WDoc :=
  { settings :=
      { total_budget := 100000, groom_name := "החתן", bride_name := "הכלה",
        wedding_date := "2026-06-15" }
    expenses := [], guests := [] }

/-- The cached totals of `WeddingApp._computeTotals`. -/
structure WTotals where
  totalSpent : ℚ
  totalGuests : ℚ
  totalGifts : ℚ
  remaining : ℚ
deriving DecidableEq

/-- `WeddingApp._computeTotals` from `docs/script.js`. -/
def W_computeTotals (d : WDoc) : WTotals :=
  let totalSpent := d.expenses.foldl (fun acc e => acc + numOrElse e.paid_amount 0) 0
  let gacc := d.guests.foldl
    (fun acc g => (acc.1 + numOrElse g.total_people 1, acc.2 + numOrElse g.gift 0))
    ((0 : ℚ), (0 : ℚ))
  { totalSpent := totalSpent, totalGuests := gacc.1, totalGifts := gacc.2,
    remaining := d.settings.total_budget - totalSpent }

/-- The budget bar fraction of `WeddingApp.renderDashboard`:
`total_budget > 0 ? Math.min(totalSpent / total_budget, 1) : 0`. -/
def W_budgetPercent (d : WDoc) : ℚ :=
  if d.settings.total_budget > 0 then
    min ((W_computeTotals d).totalSpent / d.settings.total_budget) 1
  else 0

/-! ## Data model of the older `WeddingApp` variant (unnamed file, `P0`) -/

/-- An expense record of the `P0` variant: its add handler stores raw DOM
strings, so every field is a `JVal`. -/
structure P0Expense where
  title : JVal
  estimated_cost : JVal
  paid_amount : JVal
deriving DecidableEq

/-- A guest record of the `P0` variant. -/
structure P0Guest where
  name : JVal
  side : JVal
  total_people : JVal
  status : JVal
  gift : JVal
deriving DecidableEq

/-- The `P0` settings object: its settings handler stores raw strings. -/
structure P0Settings where
  total_budget : JVal
  groom_name : JVal
  bride_name : JVal
  wedding_date : JVal
deriving DecidableEq

/-- The `P0` document. -/
structure P0Doc where
  settings : P0Settings
  expenses : List P0Expense
  guests : List P0Guest
deriving DecidableEq

/-- `P0` dashboard total spent:
`expenses.reduce((acc, curr) => acc + Number(curr.paid_amount || 0), 0)`.
A non-numeric truthy `paid_amount` makes the whole sum NaN (`none`). -/
def P0_totalSpent (d : P0Doc) : Option ℚ :=
  d.expenses.foldl
    (fun acc e => jsAdd acc (toNumber (jsOr e.paid_amount (JVal.num 0))))
    (some 0)

/-- `P0` dashboard budget percent:
`(totalSpent / s.total_budget) * 100` with no zero-denominator guard;
`none` models the NaN or Infinity the code produces there. -/
def P0_budgetPercent (d : P0Doc) : Option ℚ :=
  (jsDiv (P0_totalSpent d) d.settings.total_budget).map (fun q => q * 100)

/-! ## Mutation API: delete (JS `Array.prototype.splice(idx, 1)`) -/

/-- The start index JS `splice` actually uses: negative starts count from
the end (clamped at 0), non-negative starts are clamped at the length. -/
def spliceStart (n : ℤ) (len : ℕ) : ℕ :=
  if n < 0 then (max ((len : ℤ) + n) 0).toNat else min n.toNat len

/-- JS `l.splice(n, 1)`: delete one element at the effective start. -/
def spliceDeleteOne {α : Type} (l : List α) (n : ℤ) : List α :=
  let s := spliceStart n l.length
  l.take s ++ l.drop (s + 1)

/-- JS `ToIntegerOrInfinity` on an index that may be NaN (`none`): NaN
converts to 0. -/
def jsIdx : Option ℤ → ℤ
  | none => 0
  | some n => n

/-- `App.deleteExpense`: a `confirm()` guard, then `splice(idx, 1)`. -/
def App_deleteExpense (d : Doc) (confirmed : Bool) (idx : Option ℤ) : Doc :=
  if confirmed then { d with expenses := spliceDeleteOne d.expenses (jsIdx idx) }
  else d

/-- `App.deleteGuest`. -/
def App_deleteGuest (d : Doc) (confirmed : Bool) (idx : Option ℤ) : Doc :=
  if confirmed then { d with guests := spliceDeleteOne d.guests (jsIdx idx) }
  else d

/-- `App.deleteTask`. -/
def App_deleteTask (d : Doc) (confirmed : Bool) (idx : Option ℤ) : Doc :=
  if confirmed then { d with tasks := spliceDeleteOne d.tasks (jsIdx idx) }
  else d

/-- The `type` argument of `WeddingApp.deleteItem` ('expenses' or 'guests'). -/
inductive ListKey where
  | expenses
  | guests
deriving DecidableEq

/-- `WeddingApp.deleteItem(type, index)` of the optimized variant. -/
def W_deleteItem (d : WDoc) (confirmed : Bool) (k : ListKey) (idx : Option ℤ) : WDoc :=
  if confirmed then
    match k with
    | ListKey.expenses => { d with expenses := spliceDeleteOne d.expenses (jsIdx idx) }
    | ListKey.guests => { d with guests := spliceDeleteOne d.guests (jsIdx idx) }
  else d

/-- `WeddingApp.deleteItem` of the `P0` variant (same splice semantics). -/
def P0_deleteItem (d : P0Doc) (confirmed : Bool) (k : ListKey) (idx : Option ℤ) : P0Doc :=
  if confirmed then
    match k with
    | ListKey.expenses => { d with expenses := spliceDeleteOne d.expenses (jsIdx idx) }
    | ListKey.guests => { d with guests := spliceDeleteOne d.guests (jsIdx idx) }
  else d

/-! ## Mutation API: add operations -/

/-- Raw DOM input of the `App` expense modal. -/
structure ExpenseInput where
  title : String
  cat : String
  cost : String
  paid : String
  note : String
deriving DecidableEq

/-- The save handler of `App.openExpenseModal`: trim the title, reject an
empty title or an empty raw cost string (visual shake, no mutation),
otherwise push the coerced expense. The boolean result is the
validation-failure signal. -/
def App_addExpense (d : Doc) (inp : ExpenseInput) (newId : ℕ) (created : String) :
    Doc × Bool :=
  let title := jsTrim inp.title
  if title = "" then (d, true)
  else if inp.cost = "" then (d, true)
  else
    ({ d with expenses := d.expenses ++
        [{ id := newId, title := title, category := inp.cat,
           cost := JVal.num (numOrElse (JVal.str inp.cost) 0),
           paid := JVal.num (numOrElse (JVal.str inp.paid) 0),
           note := jsTrim inp.note, created := created }] }, false)

/-- Raw DOM input of the `App` guest modal. -/
structure GuestInput where
  name : String
  side : String
  count : String
  status : String
  gift : String
deriving DecidableEq

/-- The save handler of `App.openGuestModal`: trim the name, reject an
empty name, otherwise push the coerced guest. -/
def App_addGuest (d : Doc) (inp : GuestInput) (newId : ℕ) (created : String) :
    Doc × Bool :=
  let name := jsTrim inp.name
  if name = "" then (d, true)
  else
    ({ d with guests := d.guests ++
        [{ id := newId, name := name, side := inp.side,
           count := JVal.num (numOrElse (JVal.str inp.count) 1),
           status := inp.status,
           gift := JVal.num (numOrElse (JVal.str inp.gift) 0),
           created := created }] }, false)

/-- Raw DOM input of the `App` task modal. -/
structure TaskInput where
  title : String
  cat : String
deriving DecidableEq

/-- The save handler of `App.openTaskModal`: trim the title, reject an
empty title, otherwise push the task with `done := false`. -/
def App_addTask (d : Doc) (inp : TaskInput) (newId : ℕ) (created : String) :
    Doc × Bool :=
  let title := jsTrim inp.title
  if title = "" then (d, true)
  else
    ({ d with tasks := d.tasks ++
        [{ id := newId, title := title, category := jsTrim inp.cat,
           done := false, created := created }] }, false)

/-- The save handler of the `P0` variant's `openGuestModal`: it performs no
validation at all and pushes the raw input strings directly
(`gift: value || 0`). -/
def P0_addGuest (d : P0Doc) (inp : GuestInput) : P0Doc :=
  { d with guests := d.guests ++
      [{ name := JVal.str inp.name, side := JVal.str inp.side,
         total_people := JVal.str inp.count, status := JVal.str inp.status,
         gift := jsOr (JVal.str inp.gift) (JVal.num 0) }] }

/-! ## Mutation API: settings -/

/-- Raw DOM input of the `App` settings modal (it has no guest-estimate
field). -/
structure SettingsInput where
  groom : String
  bride : String
  date : String
  budget : String
deriving DecidableEq

/-- The save handler of `App.openSettings`:
`budget = Number(value) || 0`; the guest estimate is untouched. -/
def App_updateSettings (s : Settings) (inp : SettingsInput) : Settings :=
  { groom := if jsTrim inp.groom = "" then "החתן" else jsTrim inp.groom
    bride := if jsTrim inp.bride = "" then "הכלה" else jsTrim inp.bride
    date := inp.date
    budget := numOrElse (JVal.str inp.budget) 0
    guest_estimate := s.guest_estimate }

/-- `App.finishOnboarding`'s settings assignments:
`budget = Number(value) || 150000; guest_estimate = Number(value) || 300`. -/
def App_onboardingSettings (s : Settings)
    (groom bride date budget guests : String) : Settings :=
  { groom := if jsTrim groom = "" then "החתן" else jsTrim groom
    bride := if jsTrim bride = "" then "הכלה" else jsTrim bride
    date := date
    budget := numOrElse (JVal.str budget) 150000
    guest_estimate := numOrElse (JVal.str guests) 300 }

/-- Raw DOM input of both `WeddingApp` settings modals. -/
structure WSettingsInput where
  budget : String
  groom : String
  bride : String
  date : String
deriving DecidableEq

/-- The save handler of the optimized `WeddingApp.openSettingsModal`:
`total_budget = Number(value) || 0`. -/
def W_updateSettings (s : WSettings) (inp : WSettingsInput) : WSettings :=
  { total_budget := numOrElse (JVal.str inp.budget) 0
    groom_name := if jsTrim inp.groom = "" then "החתן" else jsTrim inp.groom
    bride_name := if jsTrim inp.bride = "" then "הכלה" else jsTrim inp.bride
    wedding_date := inp.date }

/-- The save handler of the `P0` variant's `openSettingsModal`: it stores
the raw input strings without any conversion or fallback. -/
def P0_updateSettings (s : P0Settings) (inp : WSettingsInput) : P0Settings :=
  { total_budget := JVal.str inp.budget
    groom_name := JVal.str inp.groom
    bride_name := JVal.str inp.bride
    wedding_date := JVal.str inp.date }

/-! ## Render scheduler (`App.scheduleRender` / `WeddingApp._scheduleRender`) -/

/-- The scheduler state: the pending flag (`_raf` / `_renderQueued`), the
number of queued animation-frame callbacks, and how many redraws ran. -/
structure RafState where
  raf : Bool
  queued : ℕ
  renders : ℕ
deriving DecidableEq

/-- `scheduleRender()`: if the flag is set do nothing, otherwise set it and
queue one animation-frame callback. -/
def scheduleRender (s : RafState) : RafState :=
  if s.raf then s
  else { raf := true, queued := s.queued + 1, renders := s.renders }

/-- Run one queued animation-frame callback: clear the flag first, then run
`renderAll`, which performs a mutation (and thus calls `scheduleRender`)
when `mutates` is true; finally the redraw counts as executed. -/
def runFrame (mutates : Bool) (s : RafState) : RafState :=
  match s.queued with
  | 0 => s
  | q + 1 =>
    let s1 : RafState := { raf := false, queued := q, renders := s.renders }
    let s2 := if mutates then scheduleRender s1 else s1
    { s2 with renders := s2.renders + 1 }

/-! ## Storage adapter (`App.load` / `App.save`) -/

/-- The settings object as it may come back from `JSON.parse`: any field
may be absent. -/
structure StoredSettings where
  groom : Option String
  bride : Option String
  date : Option String
  budget : Option ℚ
  guest_estimate : Option ℚ
deriving DecidableEq

/-- The parsed document as it may come back from `JSON.parse`. -/
structure StoredDoc where
  onboarded : Option Bool
  settings : Option StoredSettings
  expenses : Option (List Expense)
  guests : Option (List Guest)
  tasks : Option (List AppTask)
deriving DecidableEq

/-- JS `{...defaults.settings, ...parsed.settings}`. -/
def mergeSettings (d : Settings) (p : StoredSettings) : Settings :=
  { groom := p.groom.getD d.groom, bride := p.bride.getD d.bride,
    date := p.date.getD d.date, budget := p.budget.getD d.budget,
    guest_estimate := p.guest_estimate.getD d.guest_estimate }

/-- `App.load`: an absent key yields the defaults; otherwise
`{...defaults, ...parsed, settings: {...defaults.settings, ...parsed.settings}}`. -/
def App_load : Option StoredDoc → Doc
  | none => App_defaults
  | some p =>
    { onboarded := p.onboarded.getD App_defaults.onboarded
      settings :=
        match p.settings with
        | none => App_defaults.settings
        | some ps => mergeSettings App_defaults.settings ps
      expenses := p.expenses.getD App_defaults.expenses
      guests := p.guests.getD App_defaults.guests
      tasks := p.tasks.getD App_defaults.tasks }

/-- Serialization of a full settings object (every field present). -/
def settingsToStored (s : Settings) : StoredSettings :=
  ⟨some s.groom, some s.bride, some s.date, some s.budget, some s.guest_estimate⟩

/-- Serialization of a full document (every field present), as
`JSON.stringify` emits it. -/
def docToStored (d : Doc) : StoredDoc :=
  ⟨some d.onboarded, some (settingsToStored d.settings), some d.expenses,
   some d.guests, some d.tasks⟩

/-- `App.save`: overwrite the storage key with the serialized document. -/
def App_save (d : Doc) (prev : Option StoredDoc) : Option StoredDoc :=
  some (docToStored d)

/-- The in-memory `App` state: the document plus the transient aggregation
cache (`_cache`). -/
structure AppState where
  data : Doc
  cache : Option Snapshot
deriving DecidableEq

/-- `App.save` including its cache invalidation (`this._cache = null`):
only `data` reaches storage, never the cache. -/
def App_saveState (a : AppState) (prev : Option StoredDoc) :
    AppState × Option StoredDoc :=
  ({ data := a.data, cache := none }, App_save a.data prev)

/-- The optimized `WeddingApp` settings as they may come back from
`JSON.parse`. -/
structure WStoredSettings where
  total_budget : Option ℚ
  groom_name : Option String
  bride_name : Option String
  wedding_date : Option String
deriving DecidableEq

/-- The optimized `WeddingApp` parsed document. -/
structure WStoredDoc where
  settings : Option WStoredSettings
  expenses : Option (List WExpense)
  guests : Option (List WGuest)
deriving DecidableEq

/-- JS `{...this.data.settings, ...parsed.settings}` of `WeddingApp.loadData`. -/
def mergeWSettings (d : WSettings) (p : WStoredSettings) : WSettings :=
  { total_budget := p.total_budget.getD d.total_budget,
    groom_name := p.groom_name.getD d.groom_name,
    bride_name := p.bride_name.getD d.bride_name,
    wedding_date := p.wedding_date.getD d.wedding_date }

/-- `WeddingApp.loadData` of the optimized variant: defaults when the key
is absent, otherwise a settings merge with `expenses: parsed.expenses || []`. -/
def W_load : Option WStoredDoc → WDoc
  | none => W_defaults
  | some p =>
    { settings :=
        match p.settings with
        | none => W_defaults.settings
        | some ps => mergeWSettings W_defaults.settings ps
      expenses := p.expenses.getD []
      guests := p.guests.getD [] }

/-- `WeddingApp.saveData`: overwrite the storage key with the serialized
document. -/
def W_save (d : WDoc) (prev : Option WStoredDoc) : Option WStoredDoc :=
  some ⟨some ⟨some d.settings.total_budget, some d.settings.groom_name,
              some d.settings.bride_name, some d.settings.wedding_date⟩,
        some d.expenses, some d.guests⟩

/-! ## HTML escaping (`App.esc` / `WeddingApp._escapeHtml`) -/

/-- The replacement for one character under the escape map
`{'&': '&amp;', '<': '&lt;', '>': '&gt;', quote: '&quot;', apostrophe: '&#039;'}`. -/
def escChar (c : Char) : List Char :=
  if c = '&' then "&amp;".data
  else if c = '<' then "&lt;".data
  else if c = '>' then "&gt;".data
  else if c = quoteChar then "&quot;".data
  else if c = aposChar then '&' :: '#' :: '0' :: '3' :: '9' :: [';']
  else [c]

/-- `String(s).replace(/[&<>"']/g, c => map[c])` on the character list. -/
def escList : List Char → List Char
  | [] => []
  | c :: rest => escChar c ++ escList rest

/-- `App.esc` / `WeddingApp._escapeHtml`: `none` models a null or undefined
argument; a falsy argument returns the empty string. -/
def esc : Option String → List Char
  | none => []
  | some s => if s = "" then [] else escList s.data

/-- The four characters that must never appear raw in escaped output. -/
def rawSpecials : List Char := ['<', '>', quoteChar, aposChar]

/-- The five entities the escape map can emit. -/
def entities : List (List Char) :=
  ["&amp;".data, "&lt;".data, "&gt;".data, "&quot;".data,
   '&' :: '#' :: '0' :: '3' :: '9' :: [';']]

/-- Safety of escaped output: no raw special characters, and every
ampersand is the start of an occurrence of one of the five entities. -/
def EscSafe (out : List Char) : Prop :=
  (∀ c ∈ out, c ∉ rawSpecials) ∧
  ∀ i : Fin out.length, out.get i = '&' →
    ∃ e ∈ entities, (out.drop i.val).take e.length = e

/-! ## Aggregation lemmas -/

lemma guestStep_totalGuests (acc : GuestAcc) (g : Guest) :
    (guestStep acc g).totalGuests = acc.totalGuests + numOrElse g.count 1 := by
  unfold guestStep
  split
  · rfl
  · split <;> rfl

lemma guestStep_gifts (acc : GuestAcc) (g : Guest) :
    (guestStep acc g).gifts = acc.gifts + numOrElse g.gift 0 := by
  unfold guestStep
  split
  · rfl
  · split <;> rfl

lemma guestStep_bucketSum (acc : GuestAcc) (g : Guest) :
    (guestStep acc g).confirmed + (guestStep acc g).pending +
      (guestStep acc g).declined =
    acc.confirmed + acc.pending + acc.declined + numOrElse g.count 1 := by
  unfold guestStep
  split
  · simp only []
    ring
  · split
    · simp only []
      ring
    · simp only []
      ring

lemma guestFold_totalGuests (gs : List Guest) :
    ∀ acc : GuestAcc, (gs.foldl guestStep acc).totalGuests =
      acc.totalGuests + (gs.map (fun g => numOrElse g.count 1)).sum := by
  induction gs with
  | nil => intro acc; simp
  | cons g gs ih =>
    intro acc
    simp only [List.foldl_cons, List.map_cons, List.sum_cons, ih,
      guestStep_totalGuests]
    ring

lemma guestFold_gifts (gs : List Guest) :
    ∀ acc : GuestAcc, (gs.foldl guestStep acc).gifts =
      acc.gifts + (gs.map (fun g => numOrElse g.gift 0)).sum := by
  induction gs with
  | nil => intro acc; simp
  | cons g gs ih =>
    intro acc
    simp only [List.foldl_cons, List.map_cons, List.sum_cons, ih, guestStep_gifts]
    ring

lemma guestFold_bucketSum (gs : List Guest) :
    ∀ acc : GuestAcc, (gs.foldl guestStep acc).confirmed +
        (gs.foldl guestStep acc).pending + (gs.foldl guestStep acc).declined =
      acc.confirmed + acc.pending + acc.declined +
        (gs.map (fun g => numOrElse g.count 1)).sum := by
  induction gs with
  | nil => intro acc; simp
  | cons g gs ih =>
    intro acc
    simp only [List.foldl_cons, List.map_cons, List.sum_cons, ih,
      guestStep_bucketSum]
    ring

lemma expFold_cost (exps : List Expense) :
    ∀ a b : ℚ, (exps.foldl expStep (a, b)).1 =
      a + (exps.map (fun e => numOrElse e.cost 0)).sum := by
  induction exps with
  | nil => intro a b; simp
  | cons e exps ih =>
    intro a b
    simp only [List.foldl_cons, List.map_cons, List.sum_cons, expStep, ih]
    ring

lemma expFold_paid (exps : List Expense) :
    ∀ a b : ℚ, (exps.foldl expStep (a, b)).2 =
      b + (exps.map (fun e => numOrElse e.paid 0)).sum := by
  induction exps with
  | nil => intro a b; simp
  | cons e exps ih =>
    intro a b
    simp only [List.foldl_cons, List.map_cons, List.sum_cons, expStep, ih]
    ring

lemma wFold_spent (exps : List WExpense) :
    ∀ a : ℚ, (exps.foldl (fun acc e => acc + numOrElse e.paid_amount 0) a) =
      a + (exps.map (fun e => numOrElse e.paid_amount 0)).sum := by
  induction exps with
  | nil => intro a; simp
  | cons e exps ih =>
    intro a
    simp only [List.foldl_cons, List.map_cons, List.sum_cons, ih]
    ring

lemma wFold_guests (gs : List WGuest) :
    ∀ a b : ℚ, (gs.foldl
        (fun acc g => (acc.1 + numOrElse g.total_people 1, acc.2 + numOrElse g.gift 0))
        (a, b)).1 =
      a + (gs.map (fun g => numOrElse g.total_people 1)).sum := by
  induction gs with
  | nil => intro a b; simp
  | cons g gs ih =>
    intro a b
    simp only [List.foldl_cons, List.map_cons, List.sum_cons, ih]
    ring

/-- C4: for every document, the aggregated total guest count is the sum of
the coerced per-guest party sizes, and the confirmed, pending and declined
buckets (each weighted by party size) partition it exhaustively, whatever
the status strings are. -/
theorem guest_partition (d : Doc) :
    (App_compute d).totalGuests =
      (d.guests.map (fun g => numOrElse g.count 1)).sum ∧
    (App_compute d).confirmed + (App_compute d).pending +
      (App_compute d).declined = (App_compute d).totalGuests := by
  have h1 : (App_compute d).totalGuests =
      (d.guests.foldl guestStep ⟨0, 0, 0, 0, 0⟩).totalGuests := rfl
  have h2 : (App_compute d).confirmed =
      (d.guests.foldl guestStep ⟨0, 0, 0, 0, 0⟩).confirmed := rfl
  have h3 : (App_compute d).pending =
      (d.guests.foldl guestStep ⟨0, 0, 0, 0, 0⟩).pending := rfl
  have h4 : (App_compute d).declined =
      (d.guests.foldl guestStep ⟨0, 0, 0, 0, 0⟩).declined := rfl
  constructor
  · rw [h1, guestFold_totalGuests]
    simp
  · rw [h1, h2, h3, h4, guestFold_totalGuests, guestFold_bucketSum]
    simp

/-- C2 (amended): the monetary fields — expense cost and paid, guest gift —
contribute 0 to the totals when missing or non-numeric, in both engines;
the guest count field, however, contributes its coercion default 1, not 0. -/
theorem coercion_totals_amended (d : Doc) (w : WDoc) (v : JVal) :
    (App_compute d).totalCost =
      (d.expenses.map (fun e => numOrElse e.cost 0)).sum ∧
    (App_compute d).totalPaid =
      (d.expenses.map (fun e => numOrElse e.paid 0)).sum ∧
    (App_compute d).gifts =
      (d.guests.map (fun g => numOrElse g.gift 0)).sum ∧
    (App_compute d).totalGuests =
      (d.guests.map (fun g => numOrElse g.count 1)).sum ∧
    (W_computeTotals w).totalSpent =
      (w.expenses.map (fun e => numOrElse e.paid_amount 0)).sum ∧
    (W_computeTotals w).totalGuests =
      (w.guests.map (fun g => numOrElse g.total_people 1)).sum ∧
    (toNumber v = none → numOrElse v 0 = 0) ∧
    (toNumber v = none → numOrElse v 1 = 1) := by
  refine ⟨?_, ?_, ?_, ?_, ?_, ?_, ?_, ?_⟩
  · have h : (App_compute d).totalCost = (d.expenses.foldl expStep (0, 0)).1 := rfl
    rw [h, expFold_cost]
    ring
  · have h : (App_compute d).totalPaid = (d.expenses.foldl expStep (0, 0)).2 := rfl
    rw [h, expFold_paid]
    ring
  · have h : (App_compute d).gifts =
        (d.guests.foldl guestStep ⟨0, 0, 0, 0, 0⟩).gifts := rfl
    rw [h, guestFold_gifts]
    simp
  · have h : (App_compute d).totalGuests =
        (d.guests.foldl guestStep ⟨0, 0, 0, 0, 0⟩).totalGuests := rfl
    rw [h, guestFold_totalGuests]
    simp
  · have h : (W_computeTotals w).totalSpent =
        w.expenses.foldl (fun acc e => acc + numOrElse e.paid_amount 0) 0 := rfl
    rw [h, wFold_spent]
    ring
  · have h : (W_computeTotals w).totalGuests =
        (w.guests.foldl
          (fun acc g => (acc.1 + numOrElse g.total_people 1,
                         acc.2 + numOrElse g.gift 0)) ((0 : ℚ), (0 : ℚ))).1 := rfl
    rw [h, wFold_guests]
    ring
  · intro hv
    unfold numOrElse
    rw [hv]
  · intro hv
    unfold numOrElse
    rw [hv]

/-- A guest whose `count` field is missing. -/
def missingCountGuest : Guest :=
  { id := 1, name := "א", side := "", count := JVal.undef,
    status := "טרם אישר", gift := JVal.undef, created := "" }

/-- A document containing only that guest. -/
def missingCountDoc : Doc := { App_defaults with guests := [missingCountGuest] }

/-- C2 (counterexample): a guest with a missing `count` contributes 1 to
the total guest count (`Number(count) || 1`), not 0 as the claim states. -/
theorem coercion_counterexample :
    missingCountGuest.count = JVal.undef ∧
    (App_compute missingCountDoc).totalGuests = 1 ∧
    (App_compute missingCountDoc).totalGuests ≠ 0 := by
  have h : (App_compute missingCountDoc).totalGuests =
      (missingCountDoc.guests.foldl guestStep ⟨0, 0, 0, 0, 0⟩).totalGuests := rfl
  have h1 : (App_compute missingCountDoc).totalGuests = 1 := by
    rw [h, guestFold_totalGuests]
    norm_num [missingCountDoc, missingCountGuest, numOrElse, toNumber]
  refine ⟨rfl, h1, ?_⟩
  rw [h1]
  norm_num

/-- C2 (witness): a missing value is coerced to the loop defaults. -/
theorem coercion_witness :
    numOrElse JVal.undef 0 = 0 ∧ numOrElse JVal.undef 1 = 1 := by
  obtain ⟨-, -, -, -, -, -, h7, h8⟩ :=
    coercion_totals_amended App_defaults W_defaults JVal.undef
  exact ⟨h7 rfl, h8 rfl⟩

/-- C1 (amended): in both `docs/script.js` engines the snapshot satisfies
`remaining = budget − totalPaid`, and the paid fraction equals
`clamp(totalPaid / budget, 0, 1)` whenever the accumulated paid total is
non-negative, with fraction 0 for a zero budget; the `P0` variant has no
zero-budget guard (see the counterexample). -/
theorem budget_snapshot_amended (d : Doc) (w : WDoc) :
    (App_compute d).budgetLeft = d.settings.budget - (App_compute d).totalPaid ∧
    (0 ≤ (App_compute d).totalPaid →
      (App_compute d).budgetPercent =
        max 0 (min ((App_compute d).totalPaid / d.settings.budget) 1)) ∧
    (d.settings.budget = 0 → (App_compute d).budgetPercent = 0) ∧
    (W_computeTotals w).remaining =
      w.settings.total_budget - (W_computeTotals w).totalSpent ∧
    (0 ≤ (W_computeTotals w).totalSpent →
      W_budgetPercent w =
        max 0 (min ((W_computeTotals w).totalSpent / w.settings.total_budget) 1)) ∧
    (w.settings.total_budget = 0 → W_budgetPercent w = 0) := by
  have hbp : (App_compute d).budgetPercent =
      if d.settings.budget > 0 then
        min ((App_compute d).totalPaid / d.settings.budget) 1
      else 0 := rfl
  have hwp : W_budgetPercent w =
      if w.settings.total_budget > 0 then
        min ((W_computeTotals w).totalSpent / w.settings.total_budget) 1
      else 0 := rfl
  refine ⟨rfl, ?_, ?_, rfl, ?_, ?_⟩
  · intro htp
    rw [hbp]
    split
    · next hb =>
      symm
      exact max_eq_right (le_min (div_nonneg htp (le_of_lt hb)) (by norm_num))
    · next hb =>
      symm
      apply max_eq_left
      exact le_trans (min_le_left _ _)
        (div_nonpos_of_nonneg_of_nonpos htp (le_of_not_lt hb))
  · intro h0
    rw [hbp]
    simp [h0]
  · intro htp
    rw [hwp]
    split
    · next hb =>
      symm
      exact max_eq_right (le_min (div_nonneg htp (le_of_lt hb)) (by norm_num))
    · next hb =>
      symm
      apply max_eq_left
      exact le_trans (min_le_left _ _)
        (div_nonpos_of_nonneg_of_nonpos htp (le_of_not_lt hb))
  · intro h0
    rw [hwp]
    simp [h0]

/-- A `P0` document whose configured budget is 0 and which has no
expenses. -/
def p0ZeroBudgetDoc : P0Doc :=
  { settings :=
      { total_budget := JVal.num 0, groom_name := JVal.str "א",
        bride_name := JVal.str "ב", wedding_date := JVal.str "" }
    expenses := [], guests := [] }

/-- C1 (counterexample): in the `P0` variant, `(totalSpent / total_budget) * 100`
has no zero-budget guard, so a zero budget produces a non-finite value
(NaN here, since `0 / 0`), not the 0 the claim requires. -/
theorem budget_zero_counterexample :
    P0_budgetPercent p0ZeroBudgetDoc = none ∧
    P0_budgetPercent p0ZeroBudgetDoc ≠ some 0 := by
  have h : P0_budgetPercent p0ZeroBudgetDoc = none := rfl
  exact ⟨h, fun hc => by rw [h] at hc; exact Option.noConfusion hc⟩

/-- An `App` document whose configured budget is 0. -/
def zeroBudgetDoc : Doc :=
  { App_defaults with settings := { App_defaults.settings with budget := 0 } }

/-- C1 (witness): the amended budget equations evaluated on the default
documents and on a zero-budget document. -/
theorem budget_snapshot_witness :
    (App_compute App_defaults).budgetPercent =
      max 0 (min ((App_compute App_defaults).totalPaid /
        App_defaults.settings.budget) 1) ∧
    (App_compute zeroBudgetDoc).budgetPercent = 0 ∧
    W_budgetPercent W_defaults =
      max 0 (min ((W_computeTotals W_defaults).totalSpent /
        W_defaults.settings.total_budget) 1) := by
  refine ⟨?_, ?_, ?_⟩
  · exact (budget_snapshot_amended App_defaults W_defaults).2.1 (le_refl 0)
  · exact (budget_snapshot_amended zeroBudgetDoc W_defaults).2.2.1 rfl
  · exact (budget_snapshot_amended App_defaults W_defaults).2.2.2.2.1 (le_refl 0)

/-- C3: the overall progress percentage is the rounded percentage of
completed tasks plus one point each for a non-empty expense list and a
non-empty guest list, out of task-count + 2, clamped to [0, 100]. -/
theorem wedding_progress_formula (d : Doc) :
    (App_compute d).weddingProgress =
      max 0 (min (jsRound (100 *
        (((d.tasks.filter (fun t => t.done)).length : ℚ) +
          (if d.expenses.length > 0 then 1 else 0) +
          (if d.guests.length > 0 then 1 else 0)) /
        ((d.tasks.length : ℚ) + 2))) 100) := by
  have hwp : (App_compute d).weddingProgress =
      min (if ((d.tasks.length : ℤ) + 2) > 0 then
        jsRound (((((d.tasks.filter (fun t => t.done)).length : ℤ) +
          (if d.expenses.length > 0 then 1 else 0) +
          (if d.guests.length > 0 then 1 else 0) : ℤ) : ℚ) /
          ((((d.tasks.length : ℤ) + 2 : ℤ)) : ℚ) * 100)
        else 0) 100 := rfl
  have hpos : ((d.tasks.length : ℤ) + 2) > 0 := by positivity
  rw [hwp, if_pos hpos]
  have harg : (((((d.tasks.filter (fun t => t.done)).length : ℤ) +
        (if d.expenses.length > 0 then 1 else 0) +
        (if d.guests.length > 0 then 1 else 0) : ℤ) : ℚ) /
        ((((d.tasks.length : ℤ) + 2 : ℤ)) : ℚ) * 100) =
      (100 * (((d.tasks.filter (fun t => t.done)).length : ℚ) +
        (if d.expenses.length > 0 then 1 else 0) +
        (if d.guests.length > 0 then 1 else 0)) /
        ((d.tasks.length : ℚ) + 2)) := by
    by_cases he : d.expenses.length > 0 <;> by_cases hg : d.guests.length > 0 <;>
      simp [he, hg] <;> push_cast <;> ring
  rw [harg]
  have hnum : (0 : ℚ) ≤ 100 * (((d.tasks.filter (fun t => t.done)).length : ℚ) +
      (if d.expenses.length > 0 then 1 else 0) +
      (if d.guests.length > 0 then 1 else 0)) / ((d.tasks.length : ℚ) + 2) := by
    have h1 : (0 : ℚ) ≤ ((d.tasks.filter (fun t => t.done)).length : ℚ) := by
      positivity
    have h2 : (0 : ℚ) ≤ (if d.expenses.length > 0 then (1 : ℚ) else 0) := by
      split <;> norm_num
    have h3 : (0 : ℚ) ≤ (if d.guests.length > 0 then (1 : ℚ) else 0) := by
      split <;> norm_num
    have h4 : (0 : ℚ) < ((d.tasks.length : ℚ) + 2) := by positivity
    apply div_nonneg _ (le_of_lt h4)
    linarith
  have hround : (0 : ℤ) ≤ jsRound (100 *
      (((d.tasks.filter (fun t => t.done)).length : ℚ) +
        (if d.expenses.length > 0 then 1 else 0) +
        (if d.guests.length > 0 then 1 else 0)) / ((d.tasks.length : ℚ) + 2)) := by
    unfold jsRound
    exact Int.le_floor.mpr (by push_cast; linarith)
  symm
  exact max_eq_right (le_min hround (by norm_num))

/-! ## Delete / splice lemmas -/

lemma spliceDeleteOne_eq_eraseIdx {α : Type} (l : List α) (n : ℤ) :
    spliceDeleteOne l n = l.eraseIdx (spliceStart n l.length) := by
  unfold spliceDeleteOne
  rw [List.eraseIdx_eq_take_drop_succ]

/-- C5 (amended): every delete operation is `splice(idx, 1)` behind a
confirmation guard: an in-range index removes exactly that element and the
rest of the document is unchanged, an index ≥ length is a no-op, but a
negative index −k with k ≤ length deletes the element at position
length − k, and an index below −length or a NaN index deletes the first
element of a non-empty list; declining the confirmation is always a no-op. -/
theorem delete_splice_amended (d : Doc) (w : WDoc) (p : P0Doc) (k : ListKey)
    (idx : Option ℤ) (n : ℤ) (len : ℕ) :
    App_deleteExpense d true idx =
      { d with expenses :=
          d.expenses.eraseIdx (spliceStart (jsIdx idx) d.expenses.length) } ∧
    App_deleteGuest d true idx =
      { d with guests :=
          d.guests.eraseIdx (spliceStart (jsIdx idx) d.guests.length) } ∧
    App_deleteTask d true idx =
      { d with tasks :=
          d.tasks.eraseIdx (spliceStart (jsIdx idx) d.tasks.length) } ∧
    App_deleteExpense d false idx = d ∧
    App_deleteGuest d false idx = d ∧
    App_deleteTask d false idx = d ∧
    W_deleteItem w true ListKey.expenses idx =
      { w with expenses :=
          w.expenses.eraseIdx (spliceStart (jsIdx idx) w.expenses.length) } ∧
    W_deleteItem w true ListKey.guests idx =
      { w with guests :=
          w.guests.eraseIdx (spliceStart (jsIdx idx) w.guests.length) } ∧
    W_deleteItem w false k idx = w ∧
    P0_deleteItem p true ListKey.expenses idx =
      { p with expenses :=
          p.expenses.eraseIdx (spliceStart (jsIdx idx) p.expenses.length) } ∧
    P0_deleteItem p true ListKey.guests idx =
      { p with guests :=
          p.guests.eraseIdx (spliceStart (jsIdx idx) p.guests.length) } ∧
    P0_deleteItem p false k idx = p ∧
    (0 ≤ n → n < (len : ℤ) → spliceStart n len = n.toNat) ∧
    ((len : ℤ) ≤ n → spliceStart n len = len) ∧
    (n < 0 → 0 ≤ (len : ℤ) + n → spliceStart n len = ((len : ℤ) + n).toNat) ∧
    (n < 0 → (len : ℤ) + n < 0 → spliceStart n len = 0) ∧
    jsIdx none = 0 ∧
    (∀ m : ℕ, len ≤ m → (List.replicate len k).eraseIdx m = List.replicate len k) := by
  refine ⟨?_, ?_, ?_, rfl, rfl, rfl, ?_, ?_, rfl, ?_, ?_, rfl, ?_, ?_, ?_, ?_,
    rfl, ?_⟩
  · unfold App_deleteExpense
    rw [if_pos rfl, spliceDeleteOne_eq_eraseIdx]
  · unfold App_deleteGuest
    rw [if_pos rfl, spliceDeleteOne_eq_eraseIdx]
  · unfold App_deleteTask
    rw [if_pos rfl, spliceDeleteOne_eq_eraseIdx]
  · show { w with expenses := spliceDeleteOne w.expenses (jsIdx idx) } = _
    rw [spliceDeleteOne_eq_eraseIdx]
  · show { w with guests := spliceDeleteOne w.guests (jsIdx idx) } = _
    rw [spliceDeleteOne_eq_eraseIdx]
  · show { p with expenses := spliceDeleteOne p.expenses (jsIdx idx) } = _
    rw [spliceDeleteOne_eq_eraseIdx]
  · show { p with guests := spliceDeleteOne p.guests (jsIdx idx) } = _
    rw [spliceDeleteOne_eq_eraseIdx]
  · intro h0 hlt
    unfold spliceStart
    rw [if_neg (by omega)]
    omega
  · intro hge
    unfold spliceStart
    rw [if_neg (by omega)]
    omega
  · intro hneg hok
    unfold spliceStart
    rw [if_pos hneg]
    omega
  · intro hneg hbad
    unfold spliceStart
    rw [if_pos hneg]
    omega
  · intro m hm
    exact List.eraseIdx_of_length_le (by simpa using hm)

/-- A document with exactly one expense. -/
def oneExpenseDoc : Doc :=
  { App_defaults with expenses :=
      [{ id := 7, title := "אולם", category := "אולם", cost := JVal.num 20000,
         paid := JVal.num 5000, note := "", created := "" }] }

/-- C5 (counterexample): deleting at index −1 is not a no-op — JS `splice`
counts a negative index from the end, so the single expense is removed. -/
theorem delete_negative_counterexample :
    (App_deleteExpense oneExpenseDoc true (some (-1))).expenses = [] ∧
    oneExpenseDoc.expenses ≠ [] ∧
    App_deleteExpense oneExpenseDoc true (some (-1)) ≠ oneExpenseDoc := by
  refine ⟨rfl, by simp [oneExpenseDoc], ?_⟩
  intro h
  have h2 : (App_deleteExpense oneExpenseDoc true (some (-1))).expenses =
      oneExpenseDoc.expenses := by rw [h]
  rw [show (App_deleteExpense oneExpenseDoc true (some (-1))).expenses = []
      from rfl] at h2
  simp [oneExpenseDoc] at h2

/-- C5 (witness): the splice characterization evaluated on concrete
documents and indices of each shape. -/
theorem delete_splice_witness :
    App_deleteExpense oneExpenseDoc true (some 0) =
      { oneExpenseDoc with expenses :=
          oneExpenseDoc.expenses.eraseIdx (spliceStart (jsIdx (some 0)) oneExpenseDoc.expenses.length) } ∧
    spliceStart 0 1 = 0 ∧ spliceStart 5 1 = 1 ∧ spliceStart (-1) 1 = 0 ∧
    spliceStart (-4) 1 = 0 := by
  refine ⟨?_, ?_, ?_, ?_, ?_⟩
  · exact (delete_splice_amended oneExpenseDoc W_defaults p0ZeroBudgetDoc
      ListKey.expenses (some 0) 0 1).1
  · exact (delete_splice_amended oneExpenseDoc W_defaults p0ZeroBudgetDoc
      ListKey.expenses (some 0) 0 1).2.2.2.2.2.2.2.2.2.2.2.2.1 (by norm_num)
      (by norm_num)
  · exact (delete_splice_amended oneExpenseDoc W_defaults p0ZeroBudgetDoc
      ListKey.expenses (some 0) 5 1).2.2.2.2.2.2.2.2.2.2.2.2.2.1 (by norm_num)
  · exact (delete_splice_amended oneExpenseDoc W_defaults p0ZeroBudgetDoc
      ListKey.expenses (some 0) (-1) 1).2.2.2.2.2.2.2.2.2.2.2.2.2.2.1
      (by norm_num) (by norm_num)
  · exact (delete_splice_amended oneExpenseDoc W_defaults p0ZeroBudgetDoc
      ListKey.expenses (some 0) (-4) 1).2.2.2.2.2.2.2.2.2.2.2.2.2.2.2.1
      (by norm_num) (by norm_num)

/-- C6 (amended): in the `App` variant every add handler validates its
required fields (trimmed title and raw cost string for expenses, trimmed
name for guests, trimmed title for tasks) and a failed validation raises
the signal and leaves the document unchanged, while a passed validation
appends exactly one entity; the `P0` variant's guest add handler, however,
performs no validation and appends unconditionally, even for an empty name. -/
theorem add_validation_amended (d : Doc) (p : P0Doc) (ei : ExpenseInput)
    (gi : GuestInput) (ti : TaskInput) (newId : ℕ) (created : String) :
    (jsTrim ei.title = "" → App_addExpense d ei newId created = (d, true)) ∧
    (ei.cost = "" → App_addExpense d ei newId created = (d, true)) ∧
    (jsTrim ei.title ≠ "" → ei.cost ≠ "" →
      (App_addExpense d ei newId created).2 = false ∧
      ∃ e : Expense, (App_addExpense d ei newId created).1 =
        { d with expenses := d.expenses ++ [e] }) ∧
    (jsTrim gi.name = "" → App_addGuest d gi newId created = (d, true)) ∧
    (jsTrim gi.name ≠ "" →
      (App_addGuest d gi newId created).2 = false ∧
      ∃ g : Guest, (App_addGuest d gi newId created).1 =
        { d with guests := d.guests ++ [g] }) ∧
    (jsTrim ti.title = "" → App_addTask d ti newId created = (d, true)) ∧
    (jsTrim ti.title ≠ "" →
      (App_addTask d ti newId created).2 = false ∧
      ∃ t : AppTask, (App_addTask d ti newId created).1 =
        { d with tasks := d.tasks ++ [t] }) ∧
    (∃ g : P0Guest, P0_addGuest p gi =
      { p with guests := p.guests ++ [g] }) := by
  refine ⟨?_, ?_, ?_, ?_, ?_, ?_, ?_, ⟨_, rfl⟩⟩
  · intro h
    unfold App_addExpense
    rw [if_pos h]
  · intro h
    unfold App_addExpense
    by_cases ht : jsTrim ei.title = ""
    · rw [if_pos ht]
    · rw [if_neg ht, if_pos h]
  · intro h1 h2
    unfold App_addExpense
    rw [if_neg h1, if_neg h2]
    exact ⟨rfl, _, rfl⟩
  · intro h
    unfold App_addGuest
    rw [if_pos h]
  · intro h
    unfold App_addGuest
    rw [if_neg h]
    exact ⟨rfl, _, rfl⟩
  · intro h
    unfold App_addTask
    rw [if_pos h]
  · intro h
    unfold App_addTask
    rw [if_neg h]
    exact ⟨rfl, _, rfl⟩

/-- An empty `P0` document. -/
def p0EmptyDoc : P0Doc :=
  { settings :=
      { total_budget := JVal.num 100000, groom_name := JVal.str "החתן",
        bride_name := JVal.str "הכלה", wedding_date := JVal.str "2026-06-15" }
    expenses := [], guests := [] }

/-- Guest-modal input with an empty name. -/
def emptyNameInput : GuestInput :=
  { name := "", side := "צד חתן", count := "1", status := "טרם אישר", gift := "" }

/-- C6 (counterexample): the `P0` guest add handler appends a guest even
when the required name is empty — the mutation occurs and no validation
signal exists in that handler. -/
theorem add_validation_counterexample :
    emptyNameInput.name = "" ∧
    (P0_addGuest p0EmptyDoc emptyNameInput).guests.length = 1 ∧
    P0_addGuest p0EmptyDoc emptyNameInput ≠ p0EmptyDoc := by
  refine ⟨rfl, rfl, ?_⟩
  intro h
  have h2 : (P0_addGuest p0EmptyDoc emptyNameInput).guests.length =
      p0EmptyDoc.guests.length := by rw [h]
  have h3 : (1 : ℕ) = 0 := h2
  exact Nat.one_ne_zero h3

/-- C6 (witness): the validation branches evaluated at concrete inputs. -/
theorem add_validation_witness :
    App_addExpense App_defaults
      { title := " ", cat := "אולם", cost := "100", paid := "", note := "" }
      1 "" = (App_defaults, true) ∧
    App_addExpense App_defaults
      { title := "אולם", cat := "אולם", cost := "", paid := "", note := "" }
      1 "" = (App_defaults, true) ∧
    (App_addExpense App_defaults
      { title := "אולם", cat := "אולם", cost := "100", paid := "", note := "" }
      1 "").2 = false ∧
    App_addGuest App_defaults emptyNameInput 1 "" = (App_defaults, true) ∧
    (App_addGuest App_defaults
      { emptyNameInput with name := "דנה" } 1 "").2 = false ∧
    App_addTask App_defaults { title := "", cat := "" } 1 "" =
      (App_defaults, true) ∧
    (App_addTask App_defaults { title := "צלם", cat := "" } 1 "").2 = false := by
  refine ⟨?_, ?_, ?_, ?_, ?_, ?_, ?_⟩
  · exact (add_validation_amended App_defaults p0EmptyDoc
      { title := " ", cat := "אולם", cost := "100", paid := "", note := "" }
      emptyNameInput { title := "", cat := "" } 1 "").1 rfl
  · exact (add_validation_amended App_defaults p0EmptyDoc
      { title := "אולם", cat := "אולם", cost := "", paid := "", note := "" }
      emptyNameInput { title := "", cat := "" } 1 "").2.1 rfl
  · exact ((add_validation_amended App_defaults p0EmptyDoc
      { title := "אולם", cat := "אולם", cost := "100", paid := "", note := "" }
      emptyNameInput { title := "", cat := "" } 1 "").2.2.1
      (by decide) (by decide)).1
  · exact (add_validation_amended App_defaults p0EmptyDoc
      { title := "", cat := "", cost := "", paid := "", note := "" }
      emptyNameInput { title := "", cat := "" } 1 "").2.2.2.1 rfl
  · exact ((add_validation_amended App_defaults p0EmptyDoc
      { title := "", cat := "", cost := "", paid := "", note := "" }
      { emptyNameInput with name := "דנה" } { title := "", cat := "" } 1
      "").2.2.2.2.1 (by decide)).1
  · exact (add_validation_amended App_defaults p0EmptyDoc
      { title := "", cat := "", cost := "", paid := "", note := "" }
      emptyNameInput { title := "", cat := "" } 1 "").2.2.2.2.2.1 rfl
  · exact ((add_validation_amended App_defaults p0EmptyDoc
      { title := "", cat := "", cost := "", paid := "", note := "" }
      emptyNameInput { title := "צלם", cat := "" } 1 "").2.2.2.2.2.2.1
      (by decide)).1

/-- C7 (amended): the update-settings handlers fall back to 0 for an absent
or invalid budget (`Number(value) || 0`) in both `docs/script.js` variants,
store the raw uncoerced string in the `P0` variant, and never touch the
guest estimate; the documented defaults 150000 and 300 are applied only by
the onboarding-finish handler. -/
theorem settings_defaults_amended (s : Settings) (ws : WSettings)
    (ps : P0Settings) (inp : SettingsInput) (winp : WSettingsInput)
    (g b dt bu ge : String) :
    (strToNumber inp.budget = none → (App_updateSettings s inp).budget = 0) ∧
    (strToNumber inp.budget = some 0 → (App_updateSettings s inp).budget = 0) ∧
    (App_updateSettings s inp).guest_estimate = s.guest_estimate ∧
    (strToNumber winp.budget = none →
      (W_updateSettings ws winp).total_budget = 0) ∧
    (strToNumber winp.budget = some 0 →
      (W_updateSettings ws winp).total_budget = 0) ∧
    (P0_updateSettings ps winp).total_budget = JVal.str winp.budget ∧
    (strToNumber bu = none →
      (App_onboardingSettings s g b dt bu ge).budget = 150000) ∧
    (strToNumber bu = some 0 →
      (App_onboardingSettings s g b dt bu ge).budget = 150000) ∧
    (strToNumber ge = none →
      (App_onboardingSettings s g b dt bu ge).guest_estimate = 300) ∧
    (strToNumber ge = some 0 →
      (App_onboardingSettings s g b dt bu ge).guest_estimate = 300) := by
  refine ⟨?_, ?_, rfl, ?_, ?_, rfl, ?_, ?_, ?_, ?_⟩ <;>
    intro h <;>
    simp [App_updateSettings, W_updateSettings, App_onboardingSettings,
      numOrElse, toNumber, h]

/-- Settings-modal input whose budget field was left empty. -/
def emptyBudgetInput : SettingsInput :=
  { groom := "דן", bride := "דנה", date := "2026-06-15", budget := "" }

/-- C7 (counterexample): saving the settings with an empty budget input
stores budget 0, which is not in the claimed default range
100000–150000. -/
theorem settings_defaults_counterexample :
    emptyBudgetInput.budget = "" ∧
    (App_updateSettings App_defaults.settings emptyBudgetInput).budget = 0 ∧
    ¬ (100000 : ℚ) ≤
      (App_updateSettings App_defaults.settings emptyBudgetInput).budget := by
  have h : (App_updateSettings App_defaults.settings emptyBudgetInput).budget =
      0 := by
    simp [App_updateSettings, emptyBudgetInput, numOrElse, toNumber, strToNumber,
      trimChars]
  refine ⟨rfl, h, ?_⟩
  rw [h]
  norm_num

/-- C7 (witness): the fallbacks evaluated on the empty budget string. -/
theorem settings_defaults_witness :
    (App_updateSettings App_defaults.settings emptyBudgetInput).budget = 0 ∧
    (App_onboardingSettings App_defaults.settings "" "" "" "" "").budget =
      150000 ∧
    (App_onboardingSettings App_defaults.settings "" "" "" "" "").guest_estimate =
      300 := by
  refine ⟨?_, ?_, ?_⟩
  · exact (settings_defaults_amended App_defaults.settings W_defaults.settings
      p0EmptyDoc.settings emptyBudgetInput
      { budget := "", groom := "", bride := "", date := "" } "" "" "" "" "").2.1
      rfl
  · exact (settings_defaults_amended App_defaults.settings W_defaults.settings
      p0EmptyDoc.settings emptyBudgetInput
      { budget := "", groom := "", bride := "", date := "" } "" "" "" ""
      "").2.2.2.2.2.2.2.1 rfl
  · exact (settings_defaults_amended App_defaults.settings W_defaults.settings
      p0EmptyDoc.settings emptyBudgetInput
      { budget := "", groom := "", bride := "", date := "" } "" "" "" ""
      "").2.2.2.2.2.2.2.2.2 rfl

/-- C8: two mutations inside one frame queue exactly one redraw callback;
running the frame clears the flag before rendering, executes exactly one
redraw, and a mutation performed during that render queues a fresh
callback instead of being dropped. -/
theorem render_coalescing (n q : ℕ) :
    scheduleRender (scheduleRender { raf := false, queued := 0, renders := n }) =
      { raf := true, queued := 1, renders := n } ∧
    runFrame false
        (scheduleRender (scheduleRender { raf := false, queued := 0, renders := n })) =
      { raf := false, queued := 0, renders := n + 1 } ∧
    runFrame true (scheduleRender { raf := false, queued := 0, renders := n }) =
      { raf := true, queued := 1, renders := n + 1 } ∧
    scheduleRender { raf := true, queued := q, renders := n } =
      { raf := true, queued := q, renders := n } := by
  refine ⟨rfl, rfl, rfl, ?_⟩
  unfold scheduleRender
  rw [if_pos rfl]

/-- C9: saving a document and loading it back through the storage adapter
restores it exactly in both `docs/script.js` variants; the aggregation
cache is cleared on save and never reaches storage; loading with an absent
key yields the default document. -/
theorem storage_roundtrip (a : AppState) (st : Option StoredDoc) (wd : WDoc)
    (wst : Option WStoredDoc) :
    App_load (App_saveState a st).2 = a.data ∧
    (App_saveState a st).1.cache = none ∧
    (App_saveState a st).1.data = a.data ∧
    App_load none = App_defaults ∧
    W_load (W_save wd wst) = wd ∧
    W_load none = W_defaults := by
  refine ⟨?_, rfl, rfl, rfl, ?_, rfl⟩
  · show App_load (some (docToStored a.data)) = a.data
    obtain ⟨o, ⟨g, b, dt, bu, ge⟩, e, gs, t⟩ := a.data
    rfl
  · obtain ⟨⟨bu, g, b, dt⟩, e, gs⟩ := wd
    rfl

/-! ## Escaping lemmas -/

instance (out : List Char) : Decidable (EscSafe out) := by
  unfold EscSafe
  infer_instance

lemma escSafe_nil : EscSafe [] := by
  constructor
  · intro c hc
    exact absurd hc (List.not_mem_nil c)
  · intro i
    exact absurd i.isLt (by simp)

lemma escSafe_append {xs ys : List Char} (hx : EscSafe xs) (hy : EscSafe ys) :
    EscSafe (xs ++ ys) := by
  obtain ⟨hx1, hx2⟩ := hx
  obtain ⟨hy1, hy2⟩ := hy
  constructor
  · intro c hc
    rcases List.mem_append.mp hc with h | h
    · exact hx1 c h
    · exact hy1 c h
  · intro i hget
    by_cases hlt : i.val < xs.length
    · have hg : xs[i.val] = '&' := by
        have he : (xs ++ ys).get i = (xs ++ ys)[i.val] := rfl
        rw [he, List.getElem_append_left hlt] at hget
        exact hget
      obtain ⟨e, he, hpre⟩ := hx2 ⟨i.val, hlt⟩ hg
      refine ⟨e, he, ?_⟩
      have hlen : e.length ≤ (xs.drop i.val).length := by
        have hl := congrArg List.length hpre
        rw [List.length_take] at hl
        exact min_eq_left_iff.mp hl
      rw [List.drop_append_of_le_length (le_of_lt hlt),
        List.take_append_of_le_length hlen]
      exact hpre
    · have hj : i.val - xs.length < ys.length := by
        have hi : i.val < xs.length + ys.length := by
          simpa [List.length_append] using i.isLt
        omega
      have hg : ys.get ⟨i.val - xs.length, hj⟩ = '&' := by
        have he : (xs ++ ys).get i = (xs ++ ys)[i.val] := rfl
        rw [he, List.getElem_append_right (le_of_not_lt hlt)] at hget
        exact hget
      obtain ⟨e, he, hpre⟩ := hy2 ⟨i.val - xs.length, hj⟩ hg
      refine ⟨e, he, ?_⟩
      have hdrop : (xs ++ ys).drop i.val = ys.drop (i.val - xs.length) := by
        have h2 : i.val = xs.length + (i.val - xs.length) := by omega
        rw [h2, List.drop_append]
        congr 1
        omega
      rw [hdrop]
      exact hpre

lemma escSafe_escChar (c : Char) : EscSafe (escChar c) := by
  unfold escChar
  split_ifs with h1 h2 h3 h4 h5
  · decide
  · decide
  · decide
  · decide
  · decide
  · constructor
    · intro x hx
      have hxc : x = c := by simpa using hx
      subst hxc
      intro hmem
      have hm : x = '<' ∨ x = '>' ∨ x = quoteChar ∨ x = aposChar := by
        simpa [rawSpecials] using hmem
      rcases hm with h | h | h | h
      exacts [h2 h, h3 h, h4 h, h5 h]
    · intro i hget
      exfalso
      rcases i with ⟨iv, hlt⟩
      cases iv with
      | zero => exact h1 hget
      | succ m =>
        simp only [List.length_singleton] at hlt
        omega

lemma escSafe_escList (l : List Char) : EscSafe (escList l) := by
  induction l with
  | nil => exact escSafe_nil
  | cons c rest ih => exact escSafe_append (escSafe_escChar c) ih

/-- C10: the HTML-escaping helper emits no raw `<`, `>`, quote or
apostrophe, every ampersand in its output starts one of the five entities,
and a null, undefined or empty input yields the empty string. -/
theorem esc_safety (v : Option String) :
    EscSafe (esc v) ∧ esc none = [] ∧ esc (some "") = [] := by
  refine ⟨?_, rfl, rfl⟩
  cases v with
  | none => exact escSafe_nil
  | some s =>
    show EscSafe (if s = "" then [] else escList s.data)
    split_ifs with h
    · exact escSafe_nil
    · exact escSafe_escList s.data
